import Mathlib

set_option maxRecDepth 10000

/-!
Shallow embedding of `src/main.py` (Peppo AI video generator).

Strings are modelled as `List Char`.  Python's `str.strip()` becomes
`pyStrip`, `str.lower()` becomes `pyLower` (ASCII lower-casing, which
agrees with Python on the ASCII prompts and keywords involved),
`needle in hay` becomes `substrOf`, and `base64.b64encode` becomes
`b64encode` (standard base64 with padding).

The `generate_video` endpoint handler is embedded as a pure function of
the process configuration (`hf_token`, an `Option (List Char)` where
`none` stands for an unset environment variable and `some []` for an
empty one), the outcome of the single external provider call
(`ProviderOutcome`: the returned bytes, possibly absent or empty, or a
raised exception with its stringified message), the timestamp string,
and the submitted form field `prompt`.  It returns the HTTP outcome
(success envelope or an `HTTPException` with status code and detail)
paired with a `Bool` recording whether the provider call was reached
(invoked) on that request.
-/

def pyIsSpace (c : Char) : Bool :=
  c == ' ' || c == '\t' || c == '\n' || c == '\r' || c == '\x0b' || c == '\x0c'

/-- Python `str.strip()`: remove whitespace from both ends. -/
def pyStrip (s : List Char) : List Char :=
  ((s.dropWhile pyIsSpace).reverse.dropWhile pyIsSpace).reverse

/-- Python `str.lower()` (ASCII). -/
def pyLower (s : List Char) : List Char := s.map Char.toLower

/-- Python `needle in hay` substring containment. -/
def substrOf (needle hay : List Char) : Bool :=
  (List.range (hay.length + 1)).any (fun i => needle.isPrefixOf (hay.drop i))

/-- Entry `"cinematic"` of `enhancement_database` in `enhance_prompt`. -/
def dbCinematic : List Char :=
  ("cinematic lighting, professional cinematography, high quality, smooth motion").data

/-- Entry `"nature"` of `enhancement_database`. -/
def dbNature : List Char :=
  ("beautiful natural scenery, natural lighting, peaceful atmosphere, HD quality").data

/-- Entry `"action"` of `enhancement_database`. -/
def dbAction : List Char :=
  ("dynamic movement, exciting motion, fast-paced action, high energy").data

/-- Entry `"portrait"` of `enhancement_database`. -/
def dbPortrait : List Char :=
  ("detailed facial features, realistic rendering, good lighting, clear focus").data

/-- Entry `"urban"` of `enhancement_database`. -/
def dbUrban : List Char :=
  ("modern city atmosphere, urban environment, vibrant details, contemporary style").data

/-- Entry `"technical"` of `enhancement_database`. -/
def dbTechnical : List Char :=
  ("5 seconds duration, HD quality, smooth transitions, professional grade").data

/-- Keyword list of the portrait branch of `enhance_prompt`. -/
def portraitKeywords : List (List Char) :=
  ["person", "man", "woman", "people", "human", "character"].map String.data

/-- Keyword list of the action branch of `enhance_prompt`. -/
def actionKeywords : List (List Char) :=
  ["run", "jump", "fast", "action", "dance", "sport", "racing"].map String.data

/-- Keyword list of the nature branch of `enhance_prompt`. -/
def natureKeywords : List (List Char) :=
  ["forest", "ocean", "mountain", "nature", "tree", "flower", "landscape"].map String.data

/-- Keyword list of the urban branch of `enhance_prompt`. -/
def urbanKeywords : List (List Char) :=
  ["city", "street", "building", "car", "urban", "downtown"].map String.data

/-- Python `any(keyword in user_prompt.lower() for keyword in kws)`. -/
def kwAny (user_prompt : List Char) (kws : List (List Char)) : Bool :=
  kws.any (fun k => substrOf k (pyLower user_prompt))

/-- Embedding of `enhance_prompt` (src/main.py lines 46-93): strip the
input, append exactly one category suffix selected by a first-match-wins
if/elif chain over the lower-cased (unstripped) input, then append the
technical suffix unconditionally. -/
def enhance_prompt (user_prompt : List Char) : List Char :=
  (if kwAny user_prompt portraitKeywords then
     pyStrip user_prompt ++ (", ").data ++ dbPortrait
   else if kwAny user_prompt actionKeywords then
     pyStrip user_prompt ++ (", ").data ++ dbAction
   else if kwAny user_prompt natureKeywords then
     pyStrip user_prompt ++ (", ").data ++ dbNature
   else if kwAny user_prompt urbanKeywords then
     pyStrip user_prompt ++ (", ").data ++ dbUrban
   else
     pyStrip user_prompt ++ (", ").data ++ dbCinematic) ++ (", ").data ++ dbTechnical

/-- Python truthiness of the `HF_TOKEN` value: `not HF_TOKEN` is true for
an unset variable (`none`) and for the empty string. -/
def tokenConfigured : Option (List Char) → Bool
  | none => false
  | some s => !s.isEmpty

/-- Outcome of the single `client.text_to_video` call: a returned value
(`none` for a Python `None`, `some bs` for a bytes value `bs`), or a
raised exception carrying its stringified message `str(e)`. -/
inductive ProviderOutcome where
  | ret (bs : Option (List Nat))
  | exc (msg : List Char)
deriving DecidableEq

/-- The success envelope `response_data` of `generate_video`
(src/main.py lines 172-181). -/
structure SuccessResponse where
  status : List Char
  video_data : List Char
  enhanced_prompt : List Char
  original_prompt : List Char
  model_used : List Char
  generation_timestamp : List Char
  video_size_bytes : Nat
  enhancement_applied : Bool
deriving DecidableEq

/-- Result of one request: a 200 success envelope, or an
`HTTPException(status_code, detail)`. -/
inductive HttpResult where
  | success (r : SuccessResponse)
  | error (statusCode : Nat) (detail : List Char)
deriving DecidableEq

/-- Detail of the missing-token `HTTPException` (line 132). -/
def cfgErrorDetail : List Char :=
  ("API token not configured - please contact administrator").data

/-- Detail of the too-short-prompt `HTTPException` (line 137). -/
def shortPromptDetail : List Char :=
  ("Prompt must be at least 3 characters long").data

/-- Detail of the too-long-prompt `HTTPException` (line 141). -/
def longPromptDetail : List Char :=
  ("Prompt must be less than 200 characters").data

/-- Detail surfaced when the provider returns an empty/absent result:
the inner `Exception("Model returned empty response")` (line 163) caught
by the catch-all and prefixed (line 200). -/
def emptyRespDetail : List Char :=
  ("Video generation failed: Model returned empty response").data

/-- The fixed model identifier passed to the provider (line 158). -/
def modelId : List Char := ("Wan-AI/Wan2.2-TI2V-5B").data

/-- Standard base64 alphabet. -/
def b64Alphabet : List Char :=
  ("ABCDEFGHIJKLMNOPQRSTUVWXYZabcdefghijklmnopqrstuvwxyz0123456789+/").data

def b64Char (n : Nat) : Char := b64Alphabet.getD n 'A'

/-- Standard base64 encoding with `=` padding, as `base64.b64encode`
produces on a bytes value. -/
def b64encode : List Nat → List Char
  | [] => []
  | [a] => [b64Char (a / 4), b64Char ((a % 4) * 16), '=', '=']
  | [a, b] => [b64Char (a / 4), b64Char ((a % 4) * 16 + b / 16), b64Char ((b % 16) * 4), '=']
  | a :: b :: c :: rest =>
      [b64Char (a / 4), b64Char ((a % 4) * 16 + b / 16),
       b64Char ((b % 16) * 4 + c / 64), b64Char (c % 64)] ++ b64encode rest

/-- Embedding of the `generate_video` endpoint handler (src/main.py
lines 112-201).  The checks appear in source order: missing token
(line 130, HTTP 500), too-short prompt (line 135, HTTP 400), too-long
prompt (line 139, HTTP 400), then the provider call, whose empty result
or exception both surface as HTTP 500 through the catch-all.  The
second component records whether the provider call was reached. -/
def generate_video (hf_token : Option (List Char)) (provider : ProviderOutcome)
    (timestamp : List Char) (prompt : List Char) : HttpResult × Bool :=
  if !(tokenConfigured hf_token) then
    (HttpResult.error 500 cfgErrorDetail, false)
  else if prompt.isEmpty || decide ((pyStrip prompt).length < 3) then
    (HttpResult.error 400 shortPromptDetail, false)
  else if decide (prompt.length > 200) then
    (HttpResult.error 400 longPromptDetail, false)
  else
    match provider with
    | ProviderOutcome.exc msg =>
        (HttpResult.error 500 (("Video generation failed: ").data ++ msg), true)
    | ProviderOutcome.ret none =>
        (HttpResult.error 500 emptyRespDetail, true)
    | ProviderOutcome.ret (some video_bytes) =>
        if video_bytes.isEmpty then
          (HttpResult.error 500 emptyRespDetail, true)
        else
          (HttpResult.success
            { status := ("success").data
              video_data := ("data:video/mp4;base64,").data ++ b64encode video_bytes
              enhanced_prompt := enhance_prompt (pyStrip prompt)
              original_prompt := pyStrip prompt
              model_used := modelId
              generation_timestamp := timestamp
              video_size_bytes := video_bytes.length
              enhancement_applied := true }, true)

/-- Words of a prompt, splitting on the space character (used only to
state that a keyword match is not a whole-word match). -/
def splitWordsAux : List Char → List Char → List (List Char)
  | [], acc => [acc.reverse]
  | c :: rest, acc =>
      if c = ' ' then acc.reverse :: splitWordsAux rest [] else splitWordsAux rest (c :: acc)

def wordsOf (s : List Char) : List (List Char) := splitWordsAux s []

/-! Helper lemmas about `generate_video`, one per control-flow branch. -/

theorem pyStrip_nil : pyStrip [] = [] := rfl

theorem isEmpty_false_of_strip_len (prompt : List Char)
    (h : ¬ (pyStrip prompt).length < 3) : prompt.isEmpty = false := by
  cases prompt with
  | nil => exact absurd (by decide) h
  | cons a l => rfl

theorem gv_no_token (tok : Option (List Char)) (provider : ProviderOutcome)
    (ts prompt : List Char) (htok : tokenConfigured tok = false) :
    generate_video tok provider ts prompt = (HttpResult.error 500 cfgErrorDetail, false) := by
  simp [generate_video, htok]

theorem gv_short (tok : Option (List Char)) (provider : ProviderOutcome)
    (ts prompt : List Char) (htok : tokenConfigured tok = true)
    (hshort : (pyStrip prompt).length < 3) :
    generate_video tok provider ts prompt = (HttpResult.error 400 shortPromptDetail, false) := by
  simp [generate_video, htok, hshort]

theorem gv_long (tok : Option (List Char)) (provider : ProviderOutcome)
    (ts prompt : List Char) (htok : tokenConfigured tok = true)
    (hns : ¬ (pyStrip prompt).length < 3) (hlong : prompt.length > 200) :
    generate_video tok provider ts prompt = (HttpResult.error 400 longPromptDetail, false) := by
  simp [generate_video, htok, hns, hlong, isEmpty_false_of_strip_len prompt hns]

theorem gv_exc (tok : Option (List Char)) (msg ts prompt : List Char)
    (htok : tokenConfigured tok = true) (hns : ¬ (pyStrip prompt).length < 3)
    (hnl : ¬ prompt.length > 200) :
    generate_video tok (ProviderOutcome.exc msg) ts prompt
      = (HttpResult.error 500 (("Video generation failed: ").data ++ msg), true) := by
  simp [generate_video, htok, hns, hnl, isEmpty_false_of_strip_len prompt hns]

theorem gv_ret_none (tok : Option (List Char)) (ts prompt : List Char)
    (htok : tokenConfigured tok = true) (hns : ¬ (pyStrip prompt).length < 3)
    (hnl : ¬ prompt.length > 200) :
    generate_video tok (ProviderOutcome.ret none) ts prompt
      = (HttpResult.error 500 emptyRespDetail, true) := by
  simp [generate_video, htok, hns, hnl, isEmpty_false_of_strip_len prompt hns]

theorem gv_ret_empty (tok : Option (List Char)) (bs : List Nat) (ts prompt : List Char)
    (htok : tokenConfigured tok = true) (hns : ¬ (pyStrip prompt).length < 3)
    (hnl : ¬ prompt.length > 200) (hbs : bs.isEmpty = true) :
    generate_video tok (ProviderOutcome.ret (some bs)) ts prompt
      = (HttpResult.error 500 emptyRespDetail, true) := by
  simp [generate_video, htok, hns, hnl, isEmpty_false_of_strip_len prompt hns, hbs]

theorem gv_success (tok : Option (List Char)) (bs : List Nat) (ts prompt : List Char)
    (htok : tokenConfigured tok = true) (hns : ¬ (pyStrip prompt).length < 3)
    (hnl : ¬ prompt.length > 200) (hbs : bs.isEmpty = false) :
    generate_video tok (ProviderOutcome.ret (some bs)) ts prompt
      = (HttpResult.success
          { status := ("success").data
            video_data := ("data:video/mp4;base64,").data ++ b64encode bs
            enhanced_prompt := enhance_prompt (pyStrip prompt)
            original_prompt := pyStrip prompt
            model_used := modelId
            generation_timestamp := ts
            video_size_bytes := bs.length
            enhancement_applied := true }, true) := by
  simp [generate_video, htok, hns, hnl, isEmpty_false_of_strip_len prompt hns, hbs]

/-- A 201-character prompt with no surrounding whitespace. -/
def longPrompt201 : List Char := List.replicate 201 'x'

/-! Claim theorems. -/

/-- C1: for every prompt containing a portrait keyword (case-insensitive
substring match, as the code performs), `enhance_prompt` returns the
trimmed prompt followed by ", ", the portrait suffix, ", " and the
technical suffix — the if/elif chain is first-match-wins, so action,
nature or urban keywords present in the same prompt are ignored. -/
theorem portrait_priority_chain (p : List Char) (h : kwAny p portraitKeywords = true) :
    enhance_prompt p
      = pyStrip p ++ (", ").data ++ dbPortrait ++ (", ").data ++ dbTechnical := by
  simp [enhance_prompt, h]

/-- Witness for C1: a prompt that contains a portrait keyword together
with action, nature and urban keywords still receives the portrait
suffix. -/
theorem portrait_priority_chain_witness :
    kwAny (("a man running in the forest downtown").data) portraitKeywords = true ∧
    kwAny (("a man running in the forest downtown").data) actionKeywords = true ∧
    kwAny (("a man running in the forest downtown").data) natureKeywords = true ∧
    kwAny (("a man running in the forest downtown").data) urbanKeywords = true ∧
    enhance_prompt (("a man running in the forest downtown").data)
      = pyStrip (("a man running in the forest downtown").data)
          ++ (", ").data ++ dbPortrait ++ (", ").data ++ dbTechnical :=
  ⟨by decide, by decide, by decide, by decide,
   portrait_priority_chain (("a man running in the forest downtown").data) (by decide)⟩

/-- C2 counterexample: with no credential configured, the prompt "hi"
(which fails the trimmed-length check) receives HTTP 500, not HTTP 400:
the code checks the token before the length checks, contrary to the
claimed order. -/
theorem validation_order_counterexample :
    (generate_video none (ProviderOutcome.ret none) [] (("hi").data)).1
      = HttpResult.error 500 cfgErrorDetail ∧
    ¬ (generate_video none (ProviderOutcome.ret none) [] (("hi").data)).1
      = HttpResult.error 400 shortPromptDetail := by
  decide

/-- C2 amended: the endpoint validates in the order: HTTP 500 if no
credential is configured, then HTTP 400 if the trimmed prompt is shorter
than 3 characters, then HTTP 400 if the raw prompt exceeds 200
characters; consequently a prompt failing a length check receives
HTTP 500 when no credential is configured. -/
theorem validation_order_amended (tok : Option (List Char)) (provider : ProviderOutcome)
    (ts prompt : List Char) :
    (tokenConfigured tok = false →
      generate_video tok provider ts prompt = (HttpResult.error 500 cfgErrorDetail, false)) ∧
    (tokenConfigured tok = true → (pyStrip prompt).length < 3 →
      generate_video tok provider ts prompt = (HttpResult.error 400 shortPromptDetail, false)) ∧
    (tokenConfigured tok = true → ¬ (pyStrip prompt).length < 3 → prompt.length > 200 →
      generate_video tok provider ts prompt = (HttpResult.error 400 longPromptDetail, false)) :=
  ⟨gv_no_token tok provider ts prompt,
   gv_short tok provider ts prompt,
   gv_long tok provider ts prompt⟩

/-- Witness for the amended C2: each of the three validation outcomes at
a concrete input. -/
theorem validation_order_amended_witness :
    generate_video none (ProviderOutcome.ret none) [] (("hi").data)
      = (HttpResult.error 500 cfgErrorDetail, false) ∧
    generate_video (some (("t").data)) (ProviderOutcome.ret none) [] (("hi").data)
      = (HttpResult.error 400 shortPromptDetail, false) ∧
    generate_video (some (("t").data)) (ProviderOutcome.ret none) [] longPrompt201
      = (HttpResult.error 400 longPromptDetail, false) :=
  ⟨(validation_order_amended none (ProviderOutcome.ret none) [] (("hi").data)).1 rfl,
   (validation_order_amended (some (("t").data)) (ProviderOutcome.ret none) []
      (("hi").data)).2.1 rfl (by decide),
   (validation_order_amended (some (("t").data)) (ProviderOutcome.ret none)
      [] longPrompt201).2.2 rfl (by decide) (by decide)⟩

/-- C3: with a credential configured, the endpoint responds with
HTTP 400 and a length-related detail exactly when the trimmed prompt is
shorter than 3 characters or the raw prompt is longer than 200
characters; in particular the prompt "hi" and every 201-character
prompt are rejected. -/
theorem length_validation_iff (tok : Option (List Char)) (provider : ProviderOutcome)
    (ts prompt : List Char) (htok : tokenConfigured tok = true) :
    ((generate_video tok provider ts prompt).1 = HttpResult.error 400 shortPromptDetail ∨
     (generate_video tok provider ts prompt).1 = HttpResult.error 400 longPromptDetail)
      ↔ ((pyStrip prompt).length < 3 ∨ prompt.length > 200) := by
  by_cases h1 : (pyStrip prompt).length < 3
  · simp [gv_short tok provider ts prompt htok h1, h1]
  · by_cases h2 : prompt.length > 200
    · simp [gv_long tok provider ts prompt htok h1 h2, h2]
    · rcases provider with bs | msg
      · rcases bs with _ | bs
        · simp [gv_ret_none tok ts prompt htok h1 h2, h1, h2]
        · rcases hbe : bs.isEmpty with _ | _
          · simp [gv_success tok bs ts prompt htok h1 h2 hbe, h1, h2]
          · simp [gv_ret_empty tok bs ts prompt htok h1 h2 hbe, h1, h2]
      · simp [gv_exc tok msg ts prompt htok h1 h2, h1, h2]

/-- Witness for C3: the prompt "hi" is rejected with a length-related
HTTP 400 when a credential is configured. -/
theorem length_validation_iff_witness :
    (generate_video (some (("t").data)) (ProviderOutcome.ret none) [] (("hi").data)).1
        = HttpResult.error 400 shortPromptDetail ∨
    (generate_video (some (("t").data)) (ProviderOutcome.ret none) [] (("hi").data)).1
        = HttpResult.error 400 longPromptDetail :=
  (length_validation_iff (some (("t").data)) (ProviderOutcome.ret none) [] (("hi").data)
      rfl).mpr (by decide)

/-- C4: for every input string, the trimmed original prompt — with its
original casing — begins the output of `enhance_prompt`: the function
only appends suffixes, lower-casing being used for keyword matching
only. -/
theorem enhance_keeps_original (p : List Char) :
    ∃ rest, enhance_prompt p = pyStrip p ++ rest := by
  by_cases h1 : kwAny p portraitKeywords = true
  · exact ⟨(", ").data ++ dbPortrait ++ (", ").data ++ dbTechnical,
      by simp [enhance_prompt, h1, List.append_assoc]⟩
  · by_cases h2 : kwAny p actionKeywords = true
    · exact ⟨(", ").data ++ dbAction ++ (", ").data ++ dbTechnical,
        by simp [enhance_prompt, h1, h2, List.append_assoc]⟩
    · by_cases h3 : kwAny p natureKeywords = true
      · exact ⟨(", ").data ++ dbNature ++ (", ").data ++ dbTechnical,
          by simp [enhance_prompt, h1, h2, h3, List.append_assoc]⟩
      · by_cases h4 : kwAny p urbanKeywords = true
        · exact ⟨(", ").data ++ dbUrban ++ (", ").data ++ dbTechnical,
            by simp [enhance_prompt, h1, h2, h3, h4, List.append_assoc]⟩
        · exact ⟨(", ").data ++ dbCinematic ++ (", ").data ++ dbTechnical,
            by simp [enhance_prompt, h1, h2, h3, h4, List.append_assoc]⟩

/-- C5: the keyword-free prompt "a spaceship in orbit" falls through to
the cinematic suffix and then the technical suffix, producing exactly
the expected output string. -/
theorem spaceship_fallback :
    enhance_prompt (("a spaceship in orbit").data)
      = ("a spaceship in orbit, cinematic lighting, professional cinematography, high quality, smooth motion, 5 seconds duration, HD quality, smooth transitions, professional grade").data := by
  decide

/-- C6: with no credential configured, a valid-length prompt receives
HTTP 500 with the configuration detail, and the provider call is never
reached (second component `false`). -/
theorem no_token_no_provider_call (tok : Option (List Char)) (provider : ProviderOutcome)
    (ts prompt : List Char) (htok : tokenConfigured tok = false)
    (_hlen1 : 3 ≤ (pyStrip prompt).length) (_hlen2 : prompt.length ≤ 200) :
    generate_video tok provider ts prompt = (HttpResult.error 500 cfgErrorDetail, false) :=
  gv_no_token tok provider ts prompt htok

/-- Witness for C6: the valid prompt "a cat" with an unset token. -/
theorem no_token_no_provider_call_witness :
    generate_video none (ProviderOutcome.ret (some [1])) [] (("a cat").data)
      = (HttpResult.error 500 cfgErrorDetail, false) :=
  no_token_no_provider_call none (ProviderOutcome.ret (some [1])) [] (("a cat").data)
    rfl (by decide) (by decide)

/-- Python truthiness of the provider result: `not video_bytes` holds
for `None` and for empty bytes. -/
def providerFalsy : Option (List Nat) → Bool
  | none => true
  | some l => l.isEmpty

/-- C7: when the provider call returns an empty or absent result for a
valid prompt, the endpoint responds with HTTP 500 whose detail contains
"empty response", and no success envelope is produced (the result is an
`HttpResult.error`). -/
theorem empty_provider_result (tok : Option (List Char)) (bs : Option (List Nat))
    (ts prompt : List Char) (htok : tokenConfigured tok = true)
    (h1 : ¬ (pyStrip prompt).length < 3) (h2 : ¬ prompt.length > 200)
    (hbs : providerFalsy bs = true) :
    generate_video tok (ProviderOutcome.ret bs) ts prompt
      = (HttpResult.error 500 emptyRespDetail, true) ∧
    substrOf (("empty response").data) emptyRespDetail = true := by
  refine ⟨?_, by decide⟩
  rcases bs with _ | bs
  · exact gv_ret_none tok ts prompt htok h1 h2
  · exact gv_ret_empty tok bs ts prompt htok h1 h2 hbs

/-- Witness for C7: provider returns empty bytes on the prompt
"a cat". -/
theorem empty_provider_result_witness :
    generate_video (some (("t").data)) (ProviderOutcome.ret (some [])) [] (("a cat").data)
      = (HttpResult.error 500 emptyRespDetail, true) ∧
    substrOf (("empty response").data) emptyRespDetail = true :=
  empty_provider_result (some (("t").data)) (some []) [] (("a cat").data)
    rfl (by decide) (by decide) rfl

/-- C8: on successful generation, the envelope carries status
"success", the base64 data URI of the provider bytes, the original
trimmed prompt, its enhancement, the fixed model identifier, and the
byte count. -/
theorem success_envelope (tok : Option (List Char)) (bs : List Nat) (ts prompt : List Char)
    (htok : tokenConfigured tok = true) (h1 : ¬ (pyStrip prompt).length < 3)
    (h2 : ¬ prompt.length > 200) (hbs : bs.isEmpty = false) :
    generate_video tok (ProviderOutcome.ret (some bs)) ts prompt
      = (HttpResult.success
          { status := ("success").data
            video_data := ("data:video/mp4;base64,").data ++ b64encode bs
            enhanced_prompt := enhance_prompt (pyStrip prompt)
            original_prompt := pyStrip prompt
            model_used := modelId
            generation_timestamp := ts
            video_size_bytes := bs.length
            enhancement_applied := true }, true) :=
  gv_success tok bs ts prompt htok h1 h2 hbs

/-- Witness for C8: bytes [0, 1, 2] on the prompt "a cat". -/
theorem success_envelope_witness :
    generate_video (some (("t").data)) (ProviderOutcome.ret (some [0, 1, 2])) []
        (("a cat").data)
      = (HttpResult.success
          { status := ("success").data
            video_data := ("data:video/mp4;base64,").data ++ b64encode [0, 1, 2]
            enhanced_prompt := enhance_prompt (pyStrip (("a cat").data))
            original_prompt := pyStrip (("a cat").data)
            model_used := modelId
            generation_timestamp := []
            video_size_bytes := 3
            enhancement_applied := true }, true) :=
  success_envelope (some (("t").data)) [0, 1, 2] [] (("a cat").data)
    rfl (by decide) (by decide) rfl

/-- C9: every exception raised by the provider call surfaces as
HTTP 500 with detail "Video generation failed: " followed by the
message, uniformly in the message — the same formula holds whether or
not the message contains "rate limit", "quota" or "unauthorized", so
the substring classification (which only logs) never changes the
client-visible response. -/
theorem provider_error_surfaced (tok : Option (List Char)) (msg ts prompt : List Char)
    (htok : tokenConfigured tok = true) (h1 : ¬ (pyStrip prompt).length < 3)
    (h2 : ¬ prompt.length > 200) :
    generate_video tok (ProviderOutcome.exc msg) ts prompt
      = (HttpResult.error 500 (("Video generation failed: ").data ++ msg), true) :=
  gv_exc tok msg ts prompt htok h1 h2

/-- Witness for C9: an exception message containing "rate limit" still
surfaces verbatim with status 500. -/
theorem provider_error_surfaced_witness :
    generate_video (some (("t").data)) (ProviderOutcome.exc (("rate limit exceeded").data))
        [] (("a cat").data)
      = (HttpResult.error 500
          (("Video generation failed: ").data ++ ("rate limit exceeded").data), true) :=
  provider_error_surfaced (some (("t").data)) (("rate limit exceeded").data) []
    (("a cat").data) rfl (by decide) (by decide)

/-- C10: keyword detection is substring containment on the lower-cased
prompt, not whole-word membership: the prompt "a romance scene" has no
portrait keyword as a standalone word, yet matches ("romance" contains
"man") and receives the portrait suffix. -/
theorem substring_not_word_match :
    ∃ p : List Char,
      (wordsOf p).all (fun w => !(portraitKeywords.contains w)) = true ∧
      kwAny p portraitKeywords = true ∧
      enhance_prompt p
        = ("a romance scene, detailed facial features, realistic rendering, good lighting, clear focus, 5 seconds duration, HD quality, smooth transitions, professional grade").data :=
  ⟨("a romance scene").data, by decide, by decide, by decide⟩
